import Mathlib

/-!
Shallow embedding of `openedx/core/lib/partitions/partitions_service.py`.

The module merges a course's statically configured user partitions with a
dynamically synthesized enrollment-track partition, and resolves (with an
optional external cache) which group of a partition a user belongs to,
delegating the assignment itself to the partition's pluggable scheme.

Python values that may be `None` are modelled with `Option`; raised
exceptions with `Except PyError`; the externally supplied mapping-like
cache with an association list (`none` meaning "no cache supplied").
Scheme invocations are made observable: functions that call a scheme also
return the list of `SchemeCall`s they performed.
-/

set_option autoImplicit false

namespace Partitions

/-- A group inside a user partition: identity and display name.
Modelled from the spec: the `Group` class lives in
`openedx.core.lib.partitions.partitions`, which is not under `src/`. -/
structure Group where
  id : Int
  name : String
deriving Repr, DecidableEq

/-- Modelled from the spec: `UserPartition`
(`openedx.core.lib.partitions.partitions`, not under `src/`): integer id,
name, description, the name of its scheme, parameters, and groups. -/
structure UserPartition where
  id : Int
  name : String
  description : String
  schemeName : String
  parameters : List (String × String)
  groups : List Group
deriving Repr, DecidableEq

/-- A user: an external identity with a stable id. -/
structure User where
  id : Int
deriving Repr, DecidableEq

/-- A course: its statically configured ordered partition list and its
branch-independent id, i.e. the value of
`unicode(course.id.for_branch(None))`. -/
structure Course where
  user_partitions : List UserPartition
  course_id : String
deriving Repr, DecidableEq

/-- The arguments of one invocation of a scheme's `get_group_for_user`,
exactly as passed by `PartitionService.get_group` (the opaque
`track_function` pass-through is elided). -/
structure SchemeCall where
  schemeName : String
  course_id : String
  user : User
  user_partition : UserPartition
  assign : Bool
deriving Repr, DecidableEq

/-- The external collaborators of the module: the scheme registry (the set
of names for which `UserPartition.get_scheme` succeeds) and the pluggable
`get_group_for_user` behaviour shared by all schemes. -/
structure World where
  registered : List String
  getGroupForUser : SchemeCall → Option Group

/-- Python exceptions this code can raise. -/
inductive PyError where
  | valueError (msg : String)
  | attributeError (msg : String)
deriving Repr, DecidableEq

/-- Modelled from the spec: `UserPartition.get_scheme` (in
`openedx.core.lib.partitions.partitions`, not under `src/`) looks a scheme
up by name in the registry and raises `UserPartitionError` — here `none` —
when the name is not registered. -/
def UserPartition.get_scheme (w : World) (name : String) : Option String :=
  if name ∈ w.registered then some name else none

/-- The reserved id of the dynamic enrollment-track partition. -/
def ENROLLMENT_TRACK_PARTITION_ID : Int := 50

/-- `_get_partition_from_id`: linear scan of a partition list, returning the
first element whose id matches, or `none` when no element matches.  The
list elements are Python objects that may be `None`; evaluating
`partition.id` on `None` raises `AttributeError`. -/
def _get_partition_from_id :
    List (Option UserPartition) → Int → Except PyError (Option UserPartition)
  | [], _ => .ok none
  | none :: _, _ => .error (.attributeError "NoneType object has no attribute id")
  | some p :: rest, i =>
      if p.id = i then .ok (some p) else _get_partition_from_id rest i

/-- Modelled from the spec: the enrollment-track scheme's
`create_user_partition` (`EnrollmentTrackUserPartition`, not under `src/`)
constructs a partition carrying exactly the id, name, description and
parameters it is given, bound to the scheme it was called on. -/
def create_user_partition (schemeName : String) (id : Int)
    (name description : String) (parameters : List (String × String)) :
    UserPartition :=
  { id := id, name := name, description := description,
    schemeName := schemeName, parameters := parameters, groups := [] }

/-- `_create_enrollment_track_partition`: `none` models the two early
`return` statements (unregistered scheme; reserved id already used by a
static partition), whose `log.warning` calls are elided. -/
def _create_enrollment_track_partition (w : World) (course : Course) :
    Option UserPartition :=
  match UserPartition.get_scheme w "enrollment_track" with
  | none => none
  | some schemeName =>
    if ENROLLMENT_TRACK_PARTITION_ID ∈ course.user_partitions.map UserPartition.id then
      none
    else
      some (create_user_partition schemeName ENROLLMENT_TRACK_PARTITION_ID
        "Enrollment Track Partition"
        "Partition for segmenting users by enrollment track"
        [("course_id", course.course_id)])

/-- `_get_dynamic_partitions`: a one-element list holding whatever
`_create_enrollment_track_partition` returned — including `None`. -/
def _get_dynamic_partitions (w : World) (course : Course) :
    List (Option UserPartition) :=
  [_create_enrollment_track_partition w course]

/-- `get_course_user_partitions`:
`course.user_partitions + _get_dynamic_partitions(course)`. -/
def get_course_user_partitions (w : World) (course : Course) :
    List (Option UserPartition) :=
  course.user_partitions.map some ++ _get_dynamic_partitions w course

/-- The externally owned mapping-like cache, as an association list from
derived string keys to stored group ids (`none` stored value = the null
"no group" sentinel). -/
abbrev Cache := List (String × Option Int)

/-- Mapping read: value of the first binding of the key, if any. -/
def assocGet : Cache → String → Option (Option Int)
  | [], _ => none
  | (k1, v1) :: rest, k => if k1 = k then some v1 else assocGet rest k

/-- Mapping write `cache[key] = v`: replace the first binding of the key,
or append a fresh binding. -/
def assocSet : Cache → String → Option Int → Cache
  | [], k, v => [(k, v)]
  | (k1, v1) :: rest, k, v =>
      if k1 = k then (k, v) :: rest else (k1, v1) :: assocSet rest k v

/-- The service state: the user, the course id, and the optional external
cache (`none` when no cache was supplied). The opaque `track_function` is
elided: it is only forwarded to schemes. -/
structure PartitionService where
  _user : User
  _course_id : String
  _cache : Option Cache
deriving Repr, DecidableEq

/-- The cache key `"PartitionService.ugidfp.{}.{}.{}"` formatted with the
user id, the course id and the partition id. -/
def cache_key (user_id : Int) (course_id : String) (user_partition_id : Int) :
    String :=
  "PartitionService.ugidfp." ++ toString user_id ++ "." ++ course_id ++ "."
    ++ toString user_partition_id

/-- `PartitionService.get_group`: a single delegation to the partition's
scheme.  The method body is one `return` expression, so it touches none of
the service's fields; the embedding returns the scheme's answer together
with the call it made (for observability of invocations). -/
def PartitionService.get_group (w : World) (svc : PartitionService)
    (up : UserPartition) (assign : Bool) : Option Group × SchemeCall :=
  let call : SchemeCall :=
    { schemeName := up.schemeName, course_id := svc._course_id,
      user := svc._user, user_partition := up, assign := assign }
  (w.getGroupForUser call, call)

/-- `PartitionService._get_user_partition`: scan of the course's combined
static+dynamic partition list.  The `course` argument stands for
`self.get_course()`, which is abstract in the source. -/
def PartitionService._get_user_partition (w : World) (course : Course)
    (user_partition_id : Int) : Except PyError (Option UserPartition) :=
  _get_partition_from_id (get_course_user_partitions w course) user_partition_id

deriving instance DecidableEq for Except

/-- The observable outcome of `get_user_group_id_for_partition`: the value
returned or the exception raised, the cache afterwards, and the scheme
invocations performed. -/
structure UgidResult where
  ret : Except PyError (Option Int)
  cache : Option Cache
  calls : List SchemeCall
deriving Repr, DecidableEq

/-- `PartitionService.get_user_group_id_for_partition`.  The read guard is
`if self._cache and (cache_key in self._cache)` — the cache must be
truthy, i.e. supplied and non-empty, and contain the key; the write guard
is only `if self._cache is not None`. -/
def PartitionService.get_user_group_id_for_partition (w : World)
    (svc : PartitionService) (course : Course) (user_partition_id : Int) :
    UgidResult :=
  let key := cache_key svc._user.id svc._course_id user_partition_id
  match svc._cache.bind (fun c => if c = [] then none else assocGet c key) with
  | some v => { ret := .ok v, cache := svc._cache, calls := [] }
  | none =>
    match PartitionService._get_user_partition w course user_partition_id with
    | .error e => { ret := .error e, cache := svc._cache, calls := [] }
    | .ok none =>
        { ret := .error (.valueError
            ("Configuration problem!  No user_partition with id "
              ++ toString user_partition_id ++ " in course " ++ svc._course_id)),
          cache := svc._cache, calls := [] }
    | .ok (some user_partition) =>
        let gc := svc.get_group w user_partition true
        let group_id := gc.1.map Group.id
        let cache' := match svc._cache with
          | some c => some (assocSet c key group_id)
          | none => none
        { ret := .ok group_id, cache := cache', calls := [gc.2] }

/-! ### Concrete fixtures used by witnesses and counterexamples -/

/-- A sample group. -/
def gA : Group := { id := 7, name := "alpha" }

/-- A static partition with id 3. -/
def pA : UserPartition :=
  { id := 3, name := "A", description := "static partition A",
    schemeName := "random", parameters := [], groups := [gA] }

/-- A static partition occupying the reserved id 50. -/
def p50 : UserPartition :=
  { id := 50, name := "fifty", description := "static partition 50",
    schemeName := "random", parameters := [], groups := [] }

/-- A course with one static partition (id 3). -/
def courseA : Course :=
  { user_partitions := [pA], course_id := "course-v1:Test" }

/-- A course whose static partitions already use id 50. -/
def course50 : Course :=
  { user_partitions := [p50], course_id := "course-v1:Fifty" }

/-- A world with the enrollment_track scheme registered; every scheme call
yields group `gA`. -/
def wReg : World :=
  { registered := ["enrollment_track"], getGroupForUser := fun _ => some gA }

/-- A world with no scheme registered; every scheme call yields no group. -/
def wNone : World :=
  { registered := [], getGroupForUser := fun _ => none }

/-- A sample user. -/
def userA : User := { id := 11 }

/-- A service constructed without a cache. -/
def svcNoCache : PartitionService :=
  { _user := userA, _course_id := "course-v1:Test", _cache := none }

/-- A service whose cache already binds the key derived for partition 3. -/
def svcHit : PartitionService :=
  { _user := userA, _course_id := "course-v1:Test",
    _cache := some [(cache_key 11 "course-v1:Test" 3, some 9)] }

/-- A service whose cache binds the key derived for partition 99, an id no
partition of `courseA` has. -/
def svcHit99 : PartitionService :=
  { _user := userA, _course_id := "course-v1:Test",
    _cache := some [(cache_key 11 "course-v1:Test" 99, some 4)] }

/-- A service supplied with an empty (falsy) cache. -/
def svcEmptyCache : PartitionService :=
  { _user := userA, _course_id := "course-v1:Test", _cache := some [] }

/-- A service whose cache holds one unrelated binding. -/
def svcOther : PartitionService :=
  { _user := userA, _course_id := "course-v1:Test",
    _cache := some [("unrelated", some 1)] }

example : get_course_user_partitions wReg courseA = [some pA, some
  (create_user_partition "enrollment_track" 50 "Enrollment Track Partition"
    "Partition for segmenting users by enrollment track"
    [("course_id", "course-v1:Test")])] := by decide

example : get_course_user_partitions wNone courseA = [some pA, none] := by decide

example : (svcNoCache.get_user_group_id_for_partition wReg courseA 3).ret
    = .ok (some 7) := by decide

/-! ### Helper lemmas -/

/-- Reading back a key just written to the cache yields the written value. -/
theorem assocGet_assocSet (c : Cache) (k : String) (v : Option Int) :
    assocGet (assocSet c k v) k = some v := by
  induction c with
  | nil => simp [assocSet, assocGet]
  | cons kv rest ih =>
    obtain ⟨k1, v1⟩ := kv
    by_cases h : k1 = k
    · simp [assocSet, assocGet, h]
    · simp [assocSet, assocGet, h, ih]

/-! ### Claims -/

/-- C1: the claim says that with the enrollment_track scheme unregistered,
or with a static partition already holding the reserved id 50,
`get_course_user_partitions` returns exactly the static partition list with
no element added.  The code instead appends the `None` returned by
`_create_enrollment_track_partition` to the list, so the result has one
extra `None` element (no error is raised at this point, but the returned
list is not the static list, contradicting the function's own docstring
that promises a list of `UserPartitions`). -/
theorem C1_none_element_appended :
    get_course_user_partitions wNone courseA
      = courseA.user_partitions.map some ++ [none] ∧
    get_course_user_partitions wReg course50
      = course50.user_partitions.map some ++ [none] ∧
    get_course_user_partitions wNone courseA ≠ courseA.user_partitions.map some := by
  decide

/-- C2: when the supplied cache contains the derived key, the cached value
is returned unchanged, the partition's scheme is not invoked, and the cache
is left untouched — hence repeated calls with a populated cache return the
identical value. -/
theorem C2_cache_hit_returns_cached (w : World) (svc : PartitionService)
    (course : Course) (pid : Int) (c : Cache) (v : Option Int)
    (hc : svc._cache = some c)
    (hk : assocGet c (cache_key svc._user.id svc._course_id pid) = some v) :
    (svc.get_user_group_id_for_partition w course pid).ret = .ok v ∧
    (svc.get_user_group_id_for_partition w course pid).calls = [] ∧
    (svc.get_user_group_id_for_partition w course pid).cache = svc._cache := by
  have hne : c ≠ [] := by
    intro h
    subst h
    simp [assocGet] at hk
  simp [PartitionService.get_user_group_id_for_partition, hc, hne, hk]

theorem C2_cache_hit_returns_cached_witness :
    (svcHit.get_user_group_id_for_partition wNone courseA 3).ret = .ok (some 9) ∧
    (svcHit.get_user_group_id_for_partition wNone courseA 3).calls = [] ∧
    (svcHit.get_user_group_id_for_partition wNone courseA 3).cache = svcHit._cache :=
  C2_cache_hit_returns_cached wNone svcHit courseA 3
    [(cache_key 11 "course-v1:Test" 3, some 9)] (some 9) rfl (by decide)

/-- C3: the claim says a cache miss on an id no partition has raises
`ValueError`.  When the dynamic partition slot holds `None` (enrollment
track scheme unregistered, as here, or id-50 collision), the linear scan
evaluates `.id` on `None` and raises `AttributeError` instead,
contradicting the method's own docstring ("Raises: ValueError if the
user_partition_id isn't found").  Only when the dynamic partition exists
does the miss raise the documented `ValueError` (second conjunct). -/
theorem C3_wrong_error_class :
    (svcNoCache.get_user_group_id_for_partition wNone courseA 7).ret =
      .error (.attributeError "NoneType object has no attribute id") ∧
    (svcNoCache.get_user_group_id_for_partition wReg courseA 7).ret =
      .error (.valueError
        "Configuration problem!  No user_partition with id 7 in course course-v1:Test") := by
  decide

/-- C4: on a cache miss where the scan finds a partition with the requested
id, the service makes exactly one scheme call with `assign = True`, returns
the assigned group's id (or the null sentinel), and — when a cache was
supplied — stores that same value under the derived key. -/
theorem C4_miss_delegates_and_caches (w : World) (svc : PartitionService)
    (course : Course) (pid : Int) (up : UserPartition)
    (hmiss : svc._cache.bind
      (fun c => if c = [] then none
        else assocGet c (cache_key svc._user.id svc._course_id pid)) = none)
    (hfind : PartitionService._get_user_partition w course pid = .ok (some up)) :
    (svc.get_user_group_id_for_partition w course pid).calls =
      [(svc.get_group w up true).2] ∧
    (svc.get_group w up true).2.assign = true ∧
    (svc.get_user_group_id_for_partition w course pid).ret =
      .ok ((svc.get_group w up true).1.map Group.id) ∧
    (∀ c, svc._cache = some c →
      (svc.get_user_group_id_for_partition w course pid).cache =
        some (assocSet c (cache_key svc._user.id svc._course_id pid)
          ((svc.get_group w up true).1.map Group.id)) ∧
      assocGet (assocSet c (cache_key svc._user.id svc._course_id pid)
          ((svc.get_group w up true).1.map Group.id))
        (cache_key svc._user.id svc._course_id pid) =
        some ((svc.get_group w up true).1.map Group.id)) := by
  refine ⟨?_, rfl, ?_, ?_⟩
  · simp [PartitionService.get_user_group_id_for_partition, hmiss, hfind]
  · simp [PartitionService.get_user_group_id_for_partition, hmiss, hfind]
  · intro c hcc
    have hmiss' : (if c = [] then none
        else assocGet c (cache_key svc._user.id svc._course_id pid)) = none := by
      rw [hcc] at hmiss
      exact hmiss
    refine ⟨?_, assocGet_assocSet _ _ _⟩
    simp [PartitionService.get_user_group_id_for_partition, hmiss', hfind, hcc]

theorem C4_miss_delegates_and_caches_witness :
    (svcEmptyCache.get_user_group_id_for_partition wReg courseA 3).calls =
      [(svcEmptyCache.get_group wReg pA true).2] ∧
    (svcEmptyCache.get_group wReg pA true).2.assign = true ∧
    (svcEmptyCache.get_user_group_id_for_partition wReg courseA 3).ret =
      .ok ((svcEmptyCache.get_group wReg pA true).1.map Group.id) ∧
    (∀ c, svcEmptyCache._cache = some c →
      (svcEmptyCache.get_user_group_id_for_partition wReg courseA 3).cache =
        some (assocSet c (cache_key svcEmptyCache._user.id svcEmptyCache._course_id 3)
          ((svcEmptyCache.get_group wReg pA true).1.map Group.id)) ∧
      assocGet (assocSet c (cache_key svcEmptyCache._user.id svcEmptyCache._course_id 3)
          ((svcEmptyCache.get_group wReg pA true).1.map Group.id))
        (cache_key svcEmptyCache._user.id svcEmptyCache._course_id 3) =
        some ((svcEmptyCache.get_group wReg pA true).1.map Group.id)) :=
  C4_miss_delegates_and_caches wReg svcEmptyCache courseA 3 pA rfl (by decide)

/-- C5: with the enrollment_track scheme registered and no static partition
holding id 50, `get_course_user_partitions` is the static partitions
followed by exactly one appended enrollment-track partition with the
reserved id, the fixed name and description, and parameters carrying the
course's id. -/
theorem C5_dynamic_partition_appended (w : World) (course : Course)
    (hreg : "enrollment_track" ∈ w.registered)
    (hid : ENROLLMENT_TRACK_PARTITION_ID ∉ course.user_partitions.map UserPartition.id) :
    get_course_user_partitions w course =
      course.user_partitions.map some ++
        [some (create_user_partition "enrollment_track" ENROLLMENT_TRACK_PARTITION_ID
          "Enrollment Track Partition"
          "Partition for segmenting users by enrollment track"
          [("course_id", course.course_id)])] := by
  unfold get_course_user_partitions _get_dynamic_partitions
    _create_enrollment_track_partition UserPartition.get_scheme
  simp [hreg, hid]

theorem C5_dynamic_partition_appended_witness :
    get_course_user_partitions wReg courseA =
      courseA.user_partitions.map some ++
        [some (create_user_partition "enrollment_track" ENROLLMENT_TRACK_PARTITION_ID
          "Enrollment Track Partition"
          "Partition for segmenting users by enrollment track"
          [("course_id", courseA.course_id)])] :=
  C5_dynamic_partition_appended wReg courseA (by decide) (by decide)

/-- C6: `get_group` with `assign = False` forwards the flag unchanged to
the partition's scheme, so for any persistence effect that is a no-op on
non-assigning calls, the persisted store is unchanged; the group returned
is exactly the scheme's answer to that unchanged call, and the method's
embedding is a pure function of the service's fields (its body is a single
delegation, so user, course id and cache are untouched). -/
theorem C6_assign_false_is_lookup_only (w : World) (svc : PartitionService)
    (up : UserPartition) (Store : Type) (eff : SchemeCall → Store → Store)
    (st : Store) (hno : ∀ call s, call.assign = false → eff call s = s) :
    (svc.get_group w up false).2.assign = false ∧
    eff (svc.get_group w up false).2 st = st ∧
    (svc.get_group w up false).1 = w.getGroupForUser (svc.get_group w up false).2 :=
  ⟨rfl, hno _ _ rfl, rfl⟩

theorem C6_assign_false_is_lookup_only_witness :
    (svcNoCache.get_group wReg pA false).2.assign = false ∧
    (fun (_ : SchemeCall) (s : Nat) => s) (svcNoCache.get_group wReg pA false).2 0 = 0 ∧
    (svcNoCache.get_group wReg pA false).1 =
      wReg.getGroupForUser (svcNoCache.get_group wReg pA false).2 :=
  C6_assign_false_is_lookup_only wReg svcNoCache pA Nat (fun _ s => s) 0
    (fun _ _ _ => rfl)

/-- C7: when the static partition ids are pairwise distinct, the ids of the
partitions present in the combined static+dynamic list are pairwise
distinct, because the dynamic partition (reserved id 50) is only created
when no static partition uses that id. -/
theorem C7_combined_ids_distinct (w : World) (course : Course)
    (h : (course.user_partitions.map UserPartition.id).Nodup) :
    (((get_course_user_partitions w course).filterMap id).map UserPartition.id).Nodup ∧
    (ENROLLMENT_TRACK_PARTITION_ID ∈ course.user_partitions.map UserPartition.id →
      _create_enrollment_track_partition w course = none) := by
  constructor
  · unfold get_course_user_partitions _get_dynamic_partitions
    cases hd : _create_enrollment_track_partition w course with
    | none =>
      simpa [List.filterMap_append, List.filterMap_map, Function.comp,
        List.filterMap_some] using h
    | some et =>
      unfold _create_enrollment_track_partition UserPartition.get_scheme at hd
      by_cases hr : "enrollment_track" ∈ w.registered
      · rw [if_pos hr] at hd
        by_cases hmem : ENROLLMENT_TRACK_PARTITION_ID ∈ course.user_partitions.map UserPartition.id
        · simp [hmem] at hd
        · simp only [if_neg hmem] at hd
          obtain rfl : create_user_partition "enrollment_track"
              ENROLLMENT_TRACK_PARTITION_ID "Enrollment Track Partition"
              "Partition for segmenting users by enrollment track"
              [("course_id", course.course_id)] = et := by
            simpa using hd
          simp [List.filterMap_append, List.filterMap_map, Function.comp,
            List.filterMap_some, List.nodup_append, h, create_user_partition]
          exact fun p hp hpid => hmem (List.mem_map.mpr ⟨p, hp, hpid⟩)
      · rw [if_neg hr] at hd
        simp at hd
  · intro hmem
    unfold _create_enrollment_track_partition UserPartition.get_scheme
    by_cases hr : "enrollment_track" ∈ w.registered
    · simp [hr, hmem]
    · simp [hr]

theorem C7_combined_ids_distinct_witness :
    (((get_course_user_partitions wReg courseA).filterMap id).map UserPartition.id).Nodup ∧
    (ENROLLMENT_TRACK_PARTITION_ID ∈ courseA.user_partitions.map UserPartition.id →
      _create_enrollment_track_partition wReg courseA = none) :=
  C7_combined_ids_distinct wReg courseA (by decide)

/-- C8: a supplied cache containing the derived key short-circuits the call
even when no partition with the requested id exists in the course: the
cached value is returned and no error is raised — the unknown-id error can
only arise on a cache miss. -/
theorem C8_hit_masks_unknown_id (w : World) (svc : PartitionService)
    (course : Course) (pid : Int) (c : Cache) (v : Option Int)
    (hc : svc._cache = some c)
    (hk : assocGet c (cache_key svc._user.id svc._course_id pid) = some v)
    (_habsent : ∀ p ∈ course.user_partitions, p.id ≠ pid) :
    (svc.get_user_group_id_for_partition w course pid).ret = .ok v := by
  have hne : c ≠ [] := by
    intro h
    subst h
    simp [assocGet] at hk
  simp [PartitionService.get_user_group_id_for_partition, hc, hne, hk]

theorem C8_hit_masks_unknown_id_witness :
    (svcHit99.get_user_group_id_for_partition wNone courseA 99).ret = .ok (some 4) :=
  C8_hit_masks_unknown_id wNone svcHit99 courseA 99
    [(cache_key 11 "course-v1:Test" 99, some 4)] (some 4) rfl (by decide)
    (by decide)

/-- C9: whenever `get_user_group_id_for_partition` raises, the cache is
exactly the cache the service started with and no scheme call was made: the
error paths precede both the delegation and the cache write. -/
theorem C9_error_leaves_cache_unchanged (w : World) (svc : PartitionService)
    (course : Course) (pid : Int) (e : PyError)
    (herr : (svc.get_user_group_id_for_partition w course pid).ret = .error e) :
    (svc.get_user_group_id_for_partition w course pid).cache = svc._cache ∧
    (svc.get_user_group_id_for_partition w course pid).calls = [] := by
  cases hm : svc._cache.bind
      (fun c => if c = [] then none
        else assocGet c (cache_key svc._user.id svc._course_id pid)) with
  | some v =>
    simp [PartitionService.get_user_group_id_for_partition, hm] at herr
  | none =>
    cases hp : PartitionService._get_user_partition w course pid with
    | error e2 =>
      simp [PartitionService.get_user_group_id_for_partition, hm, hp]
    | ok op =>
      cases op with
      | none =>
        simp [PartitionService.get_user_group_id_for_partition, hm, hp]
      | some up =>
        simp [PartitionService.get_user_group_id_for_partition, hm, hp] at herr

theorem C9_error_leaves_cache_unchanged_witness :
    (svcOther.get_user_group_id_for_partition wReg courseA 7).cache = svcOther._cache ∧
    (svcOther.get_user_group_id_for_partition wReg courseA 7).calls = [] :=
  C9_error_leaves_cache_unchanged wReg svcOther courseA 7
    (.valueError
      "Configuration problem!  No user_partition with id 7 in course course-v1:Test")
    (by decide)

/-- C10: an empty supplied cache is falsy, so the read guard never takes
the cache-hit branch and the scheme is invoked; but the write guard only
checks the cache is not `None`, so the computed group id is still written
into that empty cache under the derived key. -/
theorem C10_empty_cache_still_written (w : World) (svc : PartitionService)
    (course : Course) (pid : Int) (up : UserPartition)
    (hc : svc._cache = some [])
    (hfind : PartitionService._get_user_partition w course pid = .ok (some up)) :
    (svc.get_user_group_id_for_partition w course pid).calls =
      [(svc.get_group w up true).2] ∧
    (svc.get_user_group_id_for_partition w course pid).cache =
      some [(cache_key svc._user.id svc._course_id pid,
        (svc.get_group w up true).1.map Group.id)] ∧
    (svc.get_user_group_id_for_partition w course pid).ret =
      .ok ((svc.get_group w up true).1.map Group.id) := by
  refine ⟨?_, ?_, ?_⟩ <;>
    simp [PartitionService.get_user_group_id_for_partition, hc, hfind, assocSet]

theorem C10_empty_cache_still_written_witness :
    (svcEmptyCache.get_user_group_id_for_partition wReg courseA 3).calls =
      [(svcEmptyCache.get_group wReg pA true).2] ∧
    (svcEmptyCache.get_user_group_id_for_partition wReg courseA 3).cache =
      some [(cache_key svcEmptyCache._user.id svcEmptyCache._course_id 3,
        (svcEmptyCache.get_group wReg pA true).1.map Group.id)] ∧
    (svcEmptyCache.get_user_group_id_for_partition wReg courseA 3).ret =
      .ok ((svcEmptyCache.get_group wReg pA true).1.map Group.id) :=
  C10_empty_cache_still_written wReg svcEmptyCache courseA 3 pA rfl (by decide)

end Partitions
